import Mathlib

/-!
A shallow embedding of the NITLang tree-walking interpreter
(`src/interpreter.py`, together with the AST node shapes of
`src/ast_nodes.py`), and theorems settling the specified behaviour of
assignment, comparison, reference assignment, scoping, arithmetic and
let-forms.

Modelling conventions:
* Python `Cell` objects live in a heap (`State.cells`), addressed by `Nat`;
  `Instance` objects live in `State.insts`; `Environment` frames live in
  `State.frames` (the global environment is frame `0`, created with no
  parent by `Interpreter.__init__`).
* Python dictionaries are insertion-ordered association lists
  (`dictSet` overwrites in place, appends fresh keys; `dictGet?` looks up).
* A `visit` result is either a bare runtime value or a `Cell`
  (`EV.v` / `EV.cell`), exactly as in the source.
* Exceptions are modelled by `Res.err` carrying the Python exception
  message verbatim; mutations performed before the raise are kept in the
  carried state, as in CPython.  `Res.out` marks fuel exhaustion of the
  evaluator (Python would instead recurse), and is never a statement about
  program behaviour.
* Python unbounded integers are `Int`; `//` is floor division (`Int.fdiv`).
-/

namespace NITLang

/-- The arithmetic operator tokens the parser stores in a `BinaryOp` node
(`TokenType.PLUS/MINUS/MULTIPLY/DIVIDE`); the parser produces no other
operator there, and `Comparison` nodes always carry `TokenType.EQUALS`. -/
inductive BinOp where
  | plus
  | minus
  | multiply
  | divide
deriving DecidableEq, Repr

/-- `ast_nodes.FieldDef`: a class field declaration with an optional type
annotation (`"int"`, `"bool"`, `"string"` or `None`). -/
structure FieldDef where
  name : String
  typeAnn : Option String
deriving DecidableEq, Repr

/-- The AST node set of `ast_nodes.py` (restricted to the shapes the parser
can build: `RefExpr`/`DerefExpr` hold an identifier, a `Comparison` is always
`==`).  A class method is `(name, params, body)`, mirroring `FunctionDef`
nodes stored in `ClassDef.methods`. -/
inductive Expr where
  | number (value : Int)
  | boolLit (value : Bool)
  | stringLit (value : String)
  | ident (name : String)
  | binaryOp (left : Expr) (operator : BinOp) (right : Expr)
  | comparison (left : Expr) (right : Expr)
  | ifExpr (condition trueBranch falseBranch : Expr)
  | letStatement (name : String) (typeAnn : Option String) (value : Expr)
  | letExpression (name : String) (typeAnn : Option String) (value : Expr) (body : Expr)
  | block (statements : List Expr)
  | refExpr (name : String)
  | derefExpr (name : String)
  | refAssign (ref : Expr) (value : Expr)
  | functionDef (name : String) (params : List String) (body : Expr)
  | functionCall (name : String) (arguments : List Expr)
  | classDef (name : String) (fields : List FieldDef)
      (methods : List (String × List String × Expr))
  | newExpr (className : String) (arguments : List Expr)
  | memberAccess (obj : Expr) (memberName : String)
  | methodCall (obj : Expr) (methodName : String) (arguments : List Expr)
  | assign (target : Expr) (value : Expr)

/-- A function declaration as registered by `define_function` (the
`FunctionDef` node's payload). -/
structure FuncD where
  name : String
  params : List String
  body : Expr

/-- A class declaration as registered by `define_class` (the `ClassDef`
node's payload). -/
structure ClassD where
  name : String
  fields : List FieldDef
  methods : List (String × List String × Expr)

/-- Runtime values: Python `int`, `bool`, `str`, `Instance` (by heap
address) and `None` (the initial content of a field whose annotation is
absent or not one of int/bool/string). -/
inductive Value where
  | int (n : Int)
  | bool (b : Bool)
  | str (s : String)
  | inst (addr : Nat)
  | pyNone
deriving DecidableEq, Repr

/-- The CPython type of a runtime value as tested by `type(v) is ...`:
every `Instance` has the same Python type regardless of its class. -/
inductive PyType where
  | int
  | bool
  | str
  | instTy
  | noneTy
deriving DecidableEq, Repr

def pyType : Value → PyType
  | .int _ => .int
  | .bool _ => .bool
  | .str _ => .str
  | .inst _ => .instTy
  | .pyNone => .noneTy

/-- Python `==` restricted to same-`pyType` operands (the only way the
interpreter uses it, always after a `type(l) is type(r)` check):
numbers/strings/bools by value, instances by object identity. -/
def pyEq : Value → Value → Bool
  | .int a, .int b => a = b
  | .bool a, .bool b => a = b
  | .str a, .str b => a = b
  | .inst a, .inst b => a = b
  | .pyNone, .pyNone => true
  | _, _ => false

/-- `interpreter.Instance`: a class declaration plus a field-name → cell
address dictionary. -/
structure Inst where
  classD : ClassD
  fields : List (String × Nat)

/-- One `Environment` frame: optional parent (by frame index), and the
three dictionaries `functions`, `vars` (name → cell address),
`classes`. -/
structure Frame where
  parent : Option Nat
  functions : List (String × FuncD)
  vars : List (String × Nat)
  classes : List (String × ClassD)

/-- The interpreter's mutable state: the frame heap (global frame at
index 0), the cell heap, the instance heap, and `current_env` as a frame
index. -/
structure State where
  frames : List Frame
  cells : List Value
  insts : List Inst
  current : Nat

/-- The state `Interpreter.__init__` starts from: a single parentless
global frame, empty heaps, current = global. -/
def initState : State :=
  { frames := [{ parent := Option.none, functions := [], vars := [], classes := [] }]
    cells := []
    insts := []
    current := 0 }

/-- Python dict update: overwrite in place if the key exists, else append. -/
def dictSet {α : Type} : List (String × α) → String → α → List (String × α)
  | [], k, v => [(k, v)]
  | (k2, v2) :: rest, k, v =>
      if k2 = k then (k, v) :: rest else (k2, v2) :: dictSet rest k v

/-- Python dict lookup. -/
def dictGet? {α : Type} : List (String × α) → String → Option α
  | [], _ => Option.none
  | (k2, v2) :: rest, k => if k2 = k then some v2 else dictGet? rest k

/-- `Interpreter._type_name` on an (unwrapped) value; an instance's tag is
its class's name. -/
def typeName (s : State) : Value → String
  | .bool _ => "bool"
  | .int _ => "int"
  | .str _ => "string"
  | .inst a =>
      match s.insts.get? a with
      | some i => i.classD.name
      | Option.none => "unknown"
  | .pyNone => "unknown"

/-- What a `visit` call returns: a bare value or a `Cell` (by address). -/
inductive EV where
  | v (val : Value)
  | cell (addr : Nat)
deriving DecidableEq, Repr

/-- `Interpreter._unwrap`: read through a cell, otherwise identity. -/
def unwrap (s : State) : EV → Value
  | .v val => val
  | .cell a => s.cells.getD a .pyNone

/-- `_type_name` as applied to a possibly-cell argument. -/
def typeNameEV (s : State) (e : EV) : String :=
  typeName s (unwrap s e)

/-- The outcome of a `visit`: a result and the state after, an uncaught
Python exception (message, state after), or evaluator fuel exhaustion. -/
inductive Res (α : Type) where
  | ok (a : α) (s : State)
  | err (msg : String) (s : State)
  | out

/-- Overwrite the contents of cell `a` (Python `cell.value = v`). -/
def setCell (s : State) (a : Nat) (v : Value) : State :=
  { s with cells := s.cells.set a v }

/-- Apply an update to frame `i` of the frame heap. -/
def updateFrame (s : State) (i : Nat) (f : Frame → Frame) : State :=
  match s.frames.get? i with
  | some fr => { s with frames := s.frames.set i (f fr) }
  | Option.none => s

/-- Append a fresh empty frame with the given parent; its index is the old
`frames.length`. -/
def pushFrame (s : State) (parent : Option Nat) : State :=
  { s with frames := s.frames ++ [{ parent := parent, functions := [], vars := [], classes := [] }] }

/-- `Environment.get_cell`: walk the parent chain looking for a variable.
The walk is fuelled by the number of frames (parent indices are always
indices of previously created frames, so any chain is shorter). -/
def getCellAux (frames : List Frame) (name : String) : Nat → Nat → Except String Nat
  | _, 0 => .error ("Undefined variable: " ++ name)
  | fidx, fuel + 1 =>
      match frames.get? fidx with
      | Option.none => .error ("Undefined variable: " ++ name)
      | some fr =>
          match dictGet? fr.vars name with
          | some a => .ok a
          | Option.none =>
              match fr.parent with
              | some p => getCellAux frames name p fuel
              | Option.none => .error ("Undefined variable: " ++ name)

def getCell (s : State) (fidx : Nat) (name : String) : Except String Nat :=
  getCellAux s.frames name fidx s.frames.length

/-- `Environment.get_function` (same walk, `functions` dictionary). -/
def getFunctionAux (frames : List Frame) (name : String) : Nat → Nat → Except String FuncD
  | _, 0 => .error ("Undefined function: " ++ name)
  | fidx, fuel + 1 =>
      match frames.get? fidx with
      | Option.none => .error ("Undefined function: " ++ name)
      | some fr =>
          match dictGet? fr.functions name with
          | some f => .ok f
          | Option.none =>
              match fr.parent with
              | some p => getFunctionAux frames name p fuel
              | Option.none => .error ("Undefined function: " ++ name)

def getFunction (s : State) (fidx : Nat) (name : String) : Except String FuncD :=
  getFunctionAux s.frames name fidx s.frames.length

/-- `Environment.get_class` (same walk, `classes` dictionary). -/
def getClassAux (frames : List Frame) (name : String) : Nat → Nat → Except String ClassD
  | _, 0 => .error ("Undefined class: " ++ name)
  | fidx, fuel + 1 =>
      match frames.get? fidx with
      | Option.none => .error ("Undefined class: " ++ name)
      | some fr =>
          match dictGet? fr.classes name with
          | some c => .ok c
          | Option.none =>
              match fr.parent with
              | some p => getClassAux frames name p fuel
              | Option.none => .error ("Undefined class: " ++ name)

def getClass (s : State) (fidx : Nat) (name : String) : Except String ClassD :=
  getClassAux s.frames name fidx s.frames.length

/-- `Environment.define_variable`: a value that is already a `Cell` is
bound as that very cell (no re-wrap); a bare value gets a fresh cell. -/
def defineVariable (s : State) (fidx : Nat) (name : String) (v : EV) : State :=
  match v with
  | .cell a =>
      updateFrame s fidx (fun fr => { fr with vars := dictSet fr.vars name a })
  | .v val =>
      let a := s.cells.length
      updateFrame { s with cells := s.cells ++ [val] } fidx
        (fun fr => { fr with vars := dictSet fr.vars name a })

/-- `Interpreter.default_value_for_type`. -/
def defaultValueForType : Option String → Value
  | some "int" => .int 0
  | some "bool" => .bool false
  | some "string" => .str ""
  | _ => .pyNone

/-- `Interpreter.check_type`: `some msg` models the raised type error,
`Option.none` a passed (or skipped) check. -/
def checkType (s : State) (ann : Option String) (v : EV) : Option String :=
  match ann with
  | Option.none => Option.none
  | some a =>
      let actual := typeNameEV s v
      if actual ≠ a then
        some ("Type error: expected " ++ a ++ ", got " ++ actual)
      else
        Option.none

/-- `Interpreter._find_method`: first method with the given name. -/
def findMethod : List (String × List String × Expr) → String → Option (List String × Expr)
  | [], _ => Option.none
  | (n, ps, b) :: rest, name =>
      if n = name then some (ps, b) else findMethod rest name

/-- `Interpreter._find_field_def`: first field declaration with the name. -/
def findFieldDef : List FieldDef → String → Option FieldDef
  | [], _ => Option.none
  | f :: rest, name => if f.name = name then some f else findFieldDef rest name

end NITLang

namespace NITLang

/-- One character of CPython's `repr` of a `str`: escape the backslash,
the chosen quote, newline, carriage return and tab; other (printable)
characters stand for themselves. -/
def pyCharRepr (q : Char) (c : Char) : String :=
  if c = Char.ofNat 92 then "\\\\"
  else if c = q then "\\" ++ String.singleton q
  else if c = Char.ofNat 10 then "\\n"
  else if c = Char.ofNat 13 then "\\r"
  else if c = Char.ofNat 9 then "\\t"
  else String.singleton c

/-- CPython's `repr` of a `str` (modelled for printable contents): prefer
a single quote, switch to double quotes when the string contains a single
quote but no double quote. -/
def pyStrRepr (v : String) : String :=
  let sq := Char.ofNat 39
  let dq := Char.ofNat 34
  let q := if v.contains sq && !(v.contains dq) then dq else sq
  String.singleton q ++ String.join (v.toList.map (pyCharRepr q)) ++ String.singleton q

/-- Python `repr` of a runtime value, as produced by `Cell.__repr__` and
`Instance.__repr__`.  The fuel bounds instance nesting; CPython instead
hits its recursion limit on the cyclic structures the fuel cuts off. -/
def pyRepr (s : State) : Nat → Value → String
  | _, .int n => toString n
  | _, .bool b => if b then "True" else "False"
  | _, .str v => pyStrRepr v
  | _, .pyNone => "None"
  | 0, .inst _ => ""
  | fuel + 1, .inst a =>
      match s.insts.get? a with
      | Option.none => ""
      | some i =>
          "<Instance " ++ i.classD.name ++ " \x7b" ++
            String.intercalate ", "
              (i.fields.map (fun kv =>
                pyStrRepr kv.fst ++ ": Cell(" ++
                  pyRepr s fuel (s.cells.getD kv.snd .pyNone) ++ ")")) ++
          "\x7d>"

/-- Python `str()` of a runtime value, as used by the f-string of
`visit_LetStatement`; for non-strings `str` agrees with (or falls back
to) `repr`. -/
def pyStr (s : State) (fuel : Nat) (v : Value) : String :=
  match v with
  | .str w => w
  | w => pyRepr s fuel w

/-- `visit_BinaryOp` (lines 168-189) after both operands are evaluated
and unwrapped: only values whose Python type is exactly `int` pass the
`type(v) is not int` tests (so a `bool` is rejected), `/` is Python `//`
floor division guarded by a zero check. -/
def binOpStep (s : State) (op : BinOp) (lv rv : Value) : Res EV :=
  match lv with
  | .int a =>
      match rv with
      | .int b =>
          match op with
          | .plus => .ok (.v (.int (a + b))) s
          | .minus => .ok (.v (.int (a - b))) s
          | .multiply => .ok (.v (.int (a * b))) s
          | .divide =>
              if b = 0 then .err "Division by zero" s
              else .ok (.v (.int (Int.fdiv a b))) s
      | _ => .err ("Type error in arithmetic: right operand is " ++ typeName s rv) s
  | _ => .err ("Type error in arithmetic: left operand is " ++ typeName s lv) s

/-- `visit_Comparison` (lines 194-207) after both operands are evaluated
and unwrapped: `type(l) is not type(r)` raises, otherwise the result is
`1` or `0` by Python `==`. -/
def comparisonStep (s : State) (lv rv : Value) : Res EV :=
  if pyType lv ≠ pyType rv then
    .err ("Type error in comparison: cannot compare " ++ typeName s lv ++
      " with " ++ typeName s rv) s
  else
    .ok (.v (.int (if pyEq lv rv then 1 else 0))) s

/-- The `except` branch of the identifier case of `visit_Assign`
(lines 439-464): fall back to an implicit `self` field; a failing `self`
lookup re-raises as `Undefined variable`, a declared field annotation is
checked against the new value's tag, an unannotated field is written
unchecked. -/
def selfFieldAssign (s : State) (name : String) (value : Value) : Res EV :=
  match getCell s s.current "self" with
  | .error _ => .err ("Undefined variable: " ++ name) s
  | .ok selfAddr =>
      match s.cells.getD selfAddr .pyNone with
      | .inst ia =>
          match s.insts.get? ia with
          | Option.none => .err ("Undefined variable: " ++ name) s
          | some inst =>
              match dictGet? inst.fields name with
              | Option.none =>
                  .err ("Unknown field \x27" ++ name ++ "\x27 on " ++ inst.classD.name) s
              | some fa =>
                  match findFieldDef inst.classD.fields name with
                  | some fd =>
                      match fd.typeAnn with
                      | some expected =>
                          let actual := typeName s value
                          if expected ≠ actual then
                            .err ("Type error: field " ++ name ++ " of " ++
                              inst.classD.name ++ " expects " ++ expected ++
                              ", got " ++ actual) s
                          else
                            .ok (.v value) (setCell s fa value)
                      | Option.none => .ok (.v value) (setCell s fa value)
                  | Option.none => .ok (.v value) (setCell s fa value)
      | _ => .err ("Undefined variable: " ++ name) s

/-- The identifier case of `visit_Assign` (lines 426-464).  Note that the
type mismatch raised at lines 432-436 happens inside the `try`, so it is
itself caught by the broad `except Exception` of line 439: a mismatching
assignment to a bound variable also falls through to the `self`-field
branch. -/
def assignIdent (s : State) (name : String) (value : Value) : Res EV :=
  match getCell s s.current name with
  | .ok a =>
      let old := s.cells.getD a .pyNone
      if pyType old ≠ pyType value then
        selfFieldAssign s name value
      else
        .ok (.v value) (setCell s a value)
  | .error _ => selfFieldAssign s name value

/-- The `obj.field = value` case of `visit_Assign` (lines 467-487), after
the target object expression has been evaluated and unwrapped. -/
def memberAssign (s : State) (objVal : Value) (fieldName : String) (value : Value) : Res EV :=
  match objVal with
  | .inst ia =>
      match s.insts.get? ia with
      | Option.none => .err "Member assignment on non-object value" s
      | some inst =>
          match dictGet? inst.fields fieldName with
          | Option.none =>
              .err ("Unknown field \x27" ++ fieldName ++ "\x27 on " ++ inst.classD.name) s
          | some fa =>
              match findFieldDef inst.classD.fields fieldName with
              | some fd =>
                  match fd.typeAnn with
                  | some expected =>
                      let actual := typeName s value
                      if expected ≠ actual then
                        .err ("Type error: field " ++ fieldName ++ " of " ++
                          inst.classD.name ++ " expects " ++ expected ++
                          ", got " ++ actual) s
                      else
                        .ok (.v value) (setCell s fa value)
                  | Option.none => .ok (.v value) (setCell s fa value)
              | Option.none => .ok (.v value) (setCell s fa value)
  | _ => .err "Member assignment on non-object value" s

/-- The `finally: self.current_env = previous_env` of the frame-switching
forms: restore the previous current frame on both normal return and
exception. -/
def restoreCur (r : Res EV) (prev : Nat) : Res EV :=
  match r with
  | .ok a s => .ok a { s with current := prev }
  | .err m s => .err m { s with current := prev }
  | .out => .out

/-- `for param, arg in zip(params, args): env.define_variable(param, arg)`. -/
def bindParams (fidx : Nat) : State → List String → List EV → State
  | s, p :: ps, a :: rest => bindParams fidx (defineVariable s fidx p a) ps rest
  | s, _, _ => s

/-- The common call protocol of `visit_FunctionCall`, `visit_MethodCall`
and the `init` path of `visit_NewExpr`: append one fresh frame whose
parent is the frame index passed here (every call site passes `0`, the
global frame, mirroring `Environment(parent=self.global_env)`), bind
`self` first when present, bind the parameters positionally, evaluate the
body with the fresh frame current, and restore the previous current frame
whether the body returns or raises. -/
def callBody (ev : Expr → State → Res EV) (s : State) (parent : Nat)
    (selfVal : Option Value) (params : List String) (args : List EV)
    (body : Expr) : Res EV :=
  let fi := s.frames.length
  let s1 := pushFrame s (some parent)
  let s2 :=
    match selfVal with
    | some v => defineVariable s1 fi "self" (.v v)
    | Option.none => s1
  let s3 := bindParams fi s2 params args
  restoreCur (ev body { s3 with current := fi }) s.current

/-- `[self.visit(a) for a in node.arguments]`: evaluate argument
expressions left to right, threading the state. -/
def runArgs (ev : Expr → State → Res EV) : List Expr → State → Res (List EV)
  | [], s => .ok [] s
  | a :: rest, s =>
      match ev a s with
      | .ok v s1 =>
          match runArgs ev rest s1 with
          | .ok vs s2 => .ok (v :: vs) s2
          | .err m s2 => .err m s2
          | .out => .out
      | .err m s1 => .err m s1
      | .out => .out

/-- `visit_Block`: evaluate the statements in order, value of the last
(`None` for an empty block). -/
def runBlock (ev : Expr → State → Res EV) : List Expr → State → Res EV
  | [], s => .ok (.v .pyNone) s
  | [e], s => ev e s
  | e :: rest, s =>
      match ev e s with
      | .ok _ s1 => runBlock ev rest s1
      | .err m s1 => .err m s1
      | .out => .out

/-- The field default-initialization loop of `visit_NewExpr`: one fresh
cell per declared field, holding the annotation's default value. -/
def initFields : State → List FieldDef → List (String × Nat) → State × List (String × Nat)
  | s, [], acc => (s, acc)
  | s, f :: rest, acc =>
      let a := s.cells.length
      initFields { s with cells := s.cells ++ [defaultValueForType f.typeAnn] }
        rest (dictSet acc f.name a)

end NITLang

namespace NITLang

/-- One dispatch of `Interpreter.visit`: every recursive visit goes
through `ev` (which `eval` instantiates at one unit of fuel less);
`strFuel` bounds the instance-nesting of the `repr` used by
`visit_LetStatement`'s acknowledgement f-string. -/
def evalStep (ev : Expr → State → Res EV) (strFuel : Nat) : Expr → State → Res EV
  | .number n, s => .ok (.v (.int n)) s
  | .boolLit b, s => .ok (.v (.bool b)) s
  | .stringLit w, s => .ok (.v (.str w)) s
  | .ident name, s =>
      match getCell s s.current name with
      | .ok a => .ok (.cell a) s
      | .error _ =>
          match getCell s s.current "self" with
          | .error _ => .err ("Undefined variable: " ++ name) s
          | .ok sa =>
              match s.cells.getD sa .pyNone with
              | .inst ia =>
                  match s.insts.get? ia with
                  | some inst =>
                      match dictGet? inst.fields name with
                      | some fa => .ok (.cell fa) s
                      | Option.none => .err ("Undefined variable or field: " ++ name) s
                  | Option.none => .err ("Undefined variable or field: " ++ name) s
              | _ => .err ("Undefined variable or field: " ++ name) s
  | .binaryOp l op r, s =>
      match ev l s with
      | .ok evl s1 =>
          let lv := unwrap s1 evl
          match ev r s1 with
          | .ok evr s2 => binOpStep s2 op lv (unwrap s2 evr)
          | .err m s2 => .err m s2
          | .out => .out
      | .err m s1 => .err m s1
      | .out => .out
  | .comparison l r, s =>
      match ev l s with
      | .ok evl s1 =>
          let lv := unwrap s1 evl
          match ev r s1 with
          | .ok evr s2 => comparisonStep s2 lv (unwrap s2 evr)
          | .err m s2 => .err m s2
          | .out => .out
      | .err m s1 => .err m s1
      | .out => .out
  | .ifExpr c t f, s =>
      match ev c s with
      | .ok evc s1 =>
          match unwrap s1 evc with
          | .bool b => if b then ev t s1 else ev f s1
          | .int n => if n ≠ 0 then ev t s1 else ev f s1
          | w => .err ("Type error in if condition: expected bool or int, got " ++
              typeName s1 w) s1
      | .err m s1 => .err m s1
      | .out => .out
  | .letStatement x ann v, s =>
      match ev v s with
      | .ok evv s1 =>
          match checkType s1 ann evv with
          | some m => .err m s1
          | Option.none =>
              let s2 := defineVariable s1 s1.current x evv
              .ok (.v (.str ("Variable \x27" ++ x ++ "\x27 = " ++
                pyStr s2 strFuel (unwrap s2 evv)))) s2
      | .err m s1 => .err m s1
      | .out => .out
  | .letExpression x ann v body, s =>
      match ev v s with
      | .ok evv s1 =>
          match checkType s1 ann evv with
          | some m => .err m s1
          | Option.none =>
              let fi := s1.frames.length
              let s2 := defineVariable (pushFrame s1 (some s1.current)) fi x evv
              restoreCur (ev body { s2 with current := fi }) s1.current
      | .err m s1 => .err m s1
      | .out => .out
  | .block stmts, s => runBlock ev stmts s
  | .refExpr name, s =>
      match getCell s s.current name with
      | .ok a => .ok (.cell a) s
      | .error m => .err m s
  | .derefExpr name, s =>
      match getCell s s.current name with
      | .ok a => .ok (.v (s.cells.getD a .pyNone)) s
      | .error m => .err m s
  | .refAssign ref v, s =>
      match ev ref s with
      | .ok (.cell a) s1 =>
          let old := s1.cells.getD a .pyNone
          match ev v s1 with
          | .ok evv s2 =>
              let newV := unwrap s2 evv
              if pyType old ≠ pyType newV then
                .err ("Type error: expected " ++ typeName s2 old ++ ", got " ++
                  typeName s2 newV) s2
              else
                .ok (.v newV) (setCell s2 a newV)
          | .err m s2 => .err m s2
          | .out => .out
      | .ok (.v _) s1 => .err "Ref assignment target is not a reference (Cell)" s1
      | .err m s1 => .err m s1
      | .out => .out
  | .functionDef f ps b, s =>
      let s1 := updateFrame s 0
        (fun fr => { fr with functions := dictSet fr.functions f ⟨f, ps, b⟩ })
      .ok (.v (.str ("Function \x27" ++ f ++ "\x27 defined"))) s1
  | .functionCall f args, s =>
      match getFunction s 0 f with
      | .error m => .err m s
      | .ok fd =>
          match runArgs ev args s with
          | .ok avs s1 =>
              if avs.length ≠ fd.params.length then
                .err ("Function \x27" ++ f ++ "\x27 expects " ++
                  toString fd.params.length ++ " arguments, got " ++
                  toString avs.length) s1
              else
                callBody ev s1 0 Option.none fd.params avs fd.body
          | .err m s1 => .err m s1
          | .out => .out
  | .classDef c fields methods, s =>
      let s1 := updateFrame s 0
        (fun fr => { fr with classes := dictSet fr.classes c ⟨c, fields, methods⟩ })
      .ok (.v (.str ("Class \x27" ++ c ++ "\x27 defined"))) s1
  | .newExpr c args, s =>
      match getClass s 0 c with
      | .error m => .err m s
      | .ok cd =>
          let p := initFields s cd.fields []
          let ia := p.fst.insts.length
          let s2 := { p.fst with insts := p.fst.insts ++ [⟨cd, p.snd⟩] }
          match findMethod cd.methods "init" with
          | some (ps, b) =>
              match runArgs ev args s2 with
              | .ok avs s3 =>
                  if avs.length ≠ ps.length then
                    .err ("Constructor for " ++ cd.name ++ " expects " ++
                      toString ps.length ++ " arguments, got " ++
                      toString avs.length) s3
                  else
                    match callBody ev s3 0 (some (.inst ia)) ps avs b with
                    | .ok _ s4 => .ok (.v (.inst ia)) s4
                    | .err m s4 => .err m s4
                    | .out => .out
              | .err m s3 => .err m s3
              | .out => .out
          | Option.none =>
              if args.isEmpty then .ok (.v (.inst ia)) s2
              else
                .err ("Class " ++ cd.name ++
                  " has no init method but arguments were provided") s2
  | .memberAccess obj mname, s =>
      match ev obj s with
      | .ok evo s1 =>
          match unwrap s1 evo with
          | .inst ia =>
              match s1.insts.get? ia with
              | some inst =>
                  match dictGet? inst.fields mname with
                  | some fa => .ok (.cell fa) s1
                  | Option.none =>
                      .err ("Unknown field \x27" ++ mname ++ "\x27 on " ++
                        inst.classD.name) s1
              | Option.none => .err "Member access on non-object value" s1
          | _ => .err "Member access on non-object value" s1
      | .err m s1 => .err m s1
      | .out => .out
  | .methodCall obj mname args, s =>
      match ev obj s with
      | .ok evo s1 =>
          match unwrap s1 evo with
          | .inst ia =>
              match s1.insts.get? ia with
              | Option.none => .err "Method call on non-object value" s1
              | some inst =>
                  match findMethod inst.classD.methods mname with
                  | Option.none =>
                      .err ("Undefined method \x27" ++ mname ++ "\x27 for class " ++
                        inst.classD.name) s1
                  | some (ps, b) =>
                      match runArgs ev args s1 with
                      | .ok avs s2 =>
                          if avs.length ≠ ps.length then
                            .err ("Method \x27" ++ mname ++ "\x27 expects " ++
                              toString ps.length ++ " arguments, got " ++
                              toString avs.length) s2
                          else
                            callBody ev s2 0 (some (.inst ia)) ps avs b
                      | .err m s2 => .err m s2
                      | .out => .out
          | _ => .err "Method call on non-object value" s1
      | .err m s1 => .err m s1
      | .out => .out
  | .assign target v, s =>
      match ev v s with
      | .ok evv s1 =>
          let value := unwrap s1 evv
          match target with
          | .ident name => assignIdent s1 name value
          | .memberAccess objE fname =>
              match ev objE s1 with
              | .ok evo s2 => memberAssign s2 (unwrap s2 evo) fname value
              | .err m s2 => .err m s2
              | .out => .out
          | _ => .err "Invalid assignment target" s1
      | .err m s1 => .err m s1
      | .out => .out

/-- The fuelled evaluator: one unit of fuel per `visit` dispatch.  Fuel
exhaustion (`Res.out`) is a modelling device for the source's unbounded
recursion; each terminating run is reproduced exactly by every large
enough fuel. -/
def eval : Nat → Expr → State → Res EV
  | 0, _, _ => .out
  | n + 1, e, s => evalStep (eval n) n e s

/-- `Interpreter.interpret`: evaluate and unwrap a top-level cell result. -/
def interpret (fuel : Nat) (e : Expr) (s : State) : Res Value :=
  match eval fuel e s with
  | .ok evv s1 => .ok (unwrap s1 evv) s1
  | .err m s1 => .err m s1
  | .out => .out

/-- The integer value of a successful evaluation, if it is one. -/
def resIntVal : Res EV → Option Int
  | .ok (.v (.int n)) _ => some n
  | _ => Option.none

/-- The string value of a successful evaluation, if it is one. -/
def resStrVal : Res EV → Option String
  | .ok (.v (.str w)) _ => some w
  | _ => Option.none

/-- The instance address of a successful evaluation, if it is one. -/
def resInstVal : Res EV → Option Nat
  | .ok (.v (.inst a)) _ => some a
  | _ => Option.none

/-- The message of an uncaught exception, if the run raised one. -/
def resErrMsg : Res EV → Option String
  | .err m _ => some m
  | _ => Option.none

/-- The state a finished run (normal or raising) ends in. -/
def resStateOf : Res EV → Option State
  | .ok _ s => some s
  | .err _ s => some s
  | .out => Option.none

end NITLang

namespace NITLang

/-- `binOpStep` rejects a left operand whose Python type is not `int`. -/
theorem binOpStep_left_nonint (s : State) (op : BinOp) (lv rv : Value)
    (h : pyType lv ≠ PyType.int) :
    binOpStep s op lv rv =
      .err ("Type error in arithmetic: left operand is " ++ typeName s lv) s := by
  cases lv <;> simp_all [binOpStep, pyType]

/-- `binOpStep` rejects a right operand whose Python type is not `int`. -/
theorem binOpStep_right_nonint (s : State) (op : BinOp) (lv rv : Value)
    (hl : pyType lv = PyType.int) (h : pyType rv ≠ PyType.int) :
    binOpStep s op lv rv =
      .err ("Type error in arithmetic: right operand is " ++ typeName s rv) s := by
  cases lv <;> cases rv <;> simp_all [binOpStep, pyType]

/-- C7: For every binary arithmetic operation, if either unwrapped operand
is not tagged exactly `int` — in particular if it is boolean-tagged —
evaluation raises a type error naming the offending side (left checked
first), and no arithmetic result is produced. -/
theorem arithmetic_requires_int_operands (n : Nat) (l r : Expr) (op : BinOp)
    (s s1 s2 : State) (evl evr : EV)
    (hl : eval n l s = .ok evl s1) (hr : eval n r s1 = .ok evr s2)
    (hni : pyType (unwrap s1 evl) ≠ PyType.int ∨ pyType (unwrap s2 evr) ≠ PyType.int) :
    eval (n + 1) (.binaryOp l op r) s =
      if pyType (unwrap s1 evl) ≠ PyType.int then
        .err ("Type error in arithmetic: left operand is " ++ typeName s2 (unwrap s1 evl)) s2
      else
        .err ("Type error in arithmetic: right operand is " ++ typeName s2 (unwrap s2 evr)) s2 := by
  have he : eval (n + 1) (.binaryOp l op r) s =
      binOpStep s2 op (unwrap s1 evl) (unwrap s2 evr) := by
    simp [eval, evalStep, hl, hr]
  rw [he]
  by_cases h1 : pyType (unwrap s1 evl) = PyType.int
  · rcases hni with h | h
    · exact absurd h1 h
    · simp only [h1, ne_eq, not_true_eq_false, if_false, ite_false]
      exact binOpStep_right_nonint s2 op _ _ h1 h
  · simp only [h1, ne_eq, not_false_eq_true, if_true, ite_true]
    exact binOpStep_left_nonint s2 op _ _ h1

/-- Witness for C7: `true + 1` raises the left-operand type error. -/
theorem arithmetic_requires_int_operands_witness :
    eval 2 (.binaryOp (.boolLit true) .plus (.number 1)) initState =
      .err "Type error in arithmetic: left operand is bool" initState := by
  have h := arithmetic_requires_int_operands 1 (.boolLit true) (.number 1) .plus
    initState initState initState (.v (.bool true)) (.v (.int 1)) rfl rfl
    (Or.inl (by decide))
  simpa using h

/-- For a negative divisor, the F-rounding remainder lies in `(b, 0]`
(the remainder takes the divisor's sign). -/
theorem fmod_bounds_of_neg (a : Int) {b : Int} (hb : b < 0) :
    b < a.fmod b ∧ a.fmod b ≤ 0 := by
  match b, hb with
  | .negSucc bn, _ =>
    match a with
    | .ofNat 0 =>
      constructor
      · show Int.negSucc bn < Int.fmod 0 (Int.negSucc bn)
        rw [Int.zero_fmod]
        omega
      · show Int.fmod 0 (Int.negSucc bn) ≤ 0
        rw [Int.zero_fmod]
    | .ofNat (m + 1) =>
      have hfd : Int.fmod (.ofNat (m + 1)) (.negSucc bn) =
          Int.subNatNat (m % (bn + 1)) bn := rfl
      have hsub : Int.subNatNat (m % (bn + 1)) bn =
          ((m % (bn + 1) : Nat) : Int) - (bn : Int) := Int.subNatNat_eq_coe
      have hlt : m % (bn + 1) < bn + 1 := Nat.mod_lt _ (Nat.succ_pos bn)
      have hns : Int.negSucc bn = -((bn : Int) + 1) := Int.negSucc_eq bn
      rw [hfd, hsub]
      omega
    | .negSucc m =>
      have hfd : Int.fmod (.negSucc m) (.negSucc bn) =
          -(((m + 1) % (bn + 1) : Nat) : Int) := rfl
      have hlt : (m + 1) % (bn + 1) < bn + 1 := Nat.mod_lt _ (Nat.succ_pos bn)
      have hns : Int.negSucc bn = -((bn : Int) + 1) := Int.negSucc_eq bn
      rw [hfd]
      omega

/-- C8: `a / b` with both operands int evaluates to Python's `//`,
which is floor division (quotient rounded toward negative infinity, for
either sign of the divisor), and `a / 0` raises the distinct
`Division by zero` error. -/
theorem division_floor_and_zero_error (n : Nat) (l r : Expr)
    (s s1 s2 : State) (evl evr : EV) (a b : Int)
    (hl : eval n l s = .ok evl s1) (hr : eval n r s1 = .ok evr s2)
    (ha : unwrap s1 evl = .int a) (hb : unwrap s2 evr = .int b) :
    (b = 0 → eval (n + 1) (.binaryOp l .divide r) s = .err "Division by zero" s2) ∧
    (b ≠ 0 →
      eval (n + 1) (.binaryOp l .divide r) s = .ok (.v (.int (a.fdiv b))) s2 ∧
      (0 < b → b * a.fdiv b ≤ a ∧ a < b * (a.fdiv b + 1)) ∧
      (b < 0 → b * (a.fdiv b + 1) < a ∧ a ≤ b * a.fdiv b)) := by
  have he : eval (n + 1) (.binaryOp l .divide r) s =
      binOpStep s2 .divide (unwrap s1 evl) (unwrap s2 evr) := by
    simp [eval, evalStep, hl, hr]
  rw [he, ha, hb]
  have hmod := Int.fmod_add_fdiv a b
  constructor
  · intro h0
    simp [binOpStep, h0]
  · intro hne
    refine ⟨by simp [binOpStep, hne], ?_, ?_⟩
    · intro hpos
      have h1 : 0 ≤ a.fmod b := Int.fmod_nonneg' a hpos
      have h2 : a.fmod b < b := Int.fmod_lt_of_pos a hpos
      constructor <;> nlinarith [hmod]
    · intro hneg
      have hbnd := fmod_bounds_of_neg a hneg
      constructor <;> nlinarith [hmod, hbnd.1, hbnd.2]

/-- Witness for C8: `(-7) / 2` evaluates to `-4` (floor, not truncation
toward zero), and `1 / 0` raises `Division by zero`. -/
theorem division_floor_and_zero_error_witness :
    eval 2 (.binaryOp (.number (-7)) .divide (.number 2)) initState =
      .ok (.v (.int (-4))) initState ∧
    eval 2 (.binaryOp (.number 1) .divide (.number 0)) initState =
      .err "Division by zero" initState := by
  constructor
  · have h := (division_floor_and_zero_error 1 (.number (-7)) (.number 2)
      initState initState initState (.v (.int (-7))) (.v (.int 2)) (-7) 2
      rfl rfl rfl rfl).2 (by decide)
    rw [h.1]
    rfl
  · exact (division_floor_and_zero_error 1 (.number 1) (.number 0)
      initState initState initState (.v (.int 1)) (.v (.int 0)) 1 0
      rfl rfl rfl rfl).1 rfl

end NITLang

namespace NITLang

/-- A state holding two instances of two differently named classes, as the
run of `progTwoClasses` produces them. -/
def sAB : State :=
  { frames := [{ parent := Option.none, functions := [], vars := [],
                 classes := [("A", ⟨"A", [], []⟩), ("B", ⟨"B", [], []⟩)] }]
    cells := []
    insts := [⟨⟨"A", [], []⟩, []⟩, ⟨⟨"B", [], []⟩, []⟩]
    current := 0 }

/-- `class A {}  class B {}  new A() == new B()` -/
def progTwoClassesCmp : Expr :=
  .block [.classDef "A" [] [], .classDef "B" [] [],
    .comparison (.newExpr "A" []) (.newExpr "B" [])]

/-- Counterexample to C2 as stated: the runtime type tags of the two
operands are the class names `"A"` and `"B"`, which differ, yet the
comparison does not raise — `visit_Comparison` compares `type(l)` with
`type(r)` and every `Instance` has the same Python type — and the two
(distinct) instances compare unequal, giving `0`.  The full program
confirms the same outcome on a run from the initial state. -/
theorem comparison_cross_class_no_typeerror :
    typeName sAB (.inst 0) = "A" ∧ typeName sAB (.inst 1) = "B" ∧
    comparisonStep sAB (.inst 0) (.inst 1) = .ok (.v (.int 0)) sAB ∧
    resIntVal (eval 9 progTwoClassesCmp initState) = some 0 ∧
    resErrMsg (eval 9 progTwoClassesCmp initState) = Option.none := by
  refine ⟨rfl, rfl, ?_, rfl, rfl⟩
  rfl

/-- C2 (amended): `l == r` raises the comparison type error exactly when
the operands' Python representation types differ (int, bool, string,
instance, none — all instances of all classes sharing one representation
type); otherwise the result is the int 1 if the values are equal (numbers,
bools, strings by value; instances by identity) and 0 if not. -/
theorem comparison_checks_python_type (n : Nat) (l r : Expr)
    (s s1 s2 : State) (evl evr : EV)
    (hl : eval n l s = .ok evl s1) (hr : eval n r s1 = .ok evr s2) :
    eval (n + 1) (.comparison l r) s =
      if pyType (unwrap s1 evl) ≠ pyType (unwrap s2 evr) then
        .err ("Type error in comparison: cannot compare " ++
          typeName s2 (unwrap s1 evl) ++ " with " ++ typeName s2 (unwrap s2 evr)) s2
      else
        .ok (.v (.int (if pyEq (unwrap s1 evl) (unwrap s2 evr) then 1 else 0))) s2 := by
  simp [eval, evalStep, hl, hr, comparisonStep]

/-- Witness for C2 (amended): `3 == true` raises (int vs bool), applied
at concrete operands. -/
theorem comparison_checks_python_type_witness :
    eval 2 (.comparison (.number 3) (.boolLit true)) initState =
      .err "Type error in comparison: cannot compare int with bool" initState := by
  have h := comparison_checks_python_type 1 (.number 3) (.boolLit true)
    initState initState initState (.v (.int 3)) (.v (.bool true)) rfl rfl
  rw [h]
  rfl

/-- `class A {}  class B {}  let x = new A() in x := new B()` -/
def progCrossClassRefAssign : Expr :=
  .block [.classDef "A" [] [], .classDef "B" [] [],
    .letExpression "x" Option.none (.newExpr "A" [])
      (.refAssign (.ident "x") (.newExpr "B" []))]

/-- Counterexample to C3 as stated: the cell bound to `x` stores an
instance of class `A` (tag `"A"`), the new value is an instance of class
`B` (tag `"B"`), the tags differ, yet `:=` does not raise —
`visit_RefAssign` compares `type(old)` with `type(new)` and every
`Instance` has the same Python type — the cell (address 0) is mutated in
place to hold the `B` instance and that instance is returned. -/
theorem ref_assign_cross_class_no_typeerror :
    resInstVal (eval 9 progCrossClassRefAssign initState) = some 1 ∧
    resErrMsg (eval 9 progCrossClassRefAssign initState) = Option.none ∧
    (resStateOf (eval 9 progCrossClassRefAssign initState)).map
      (fun s => (typeName s (.inst 0), typeName s (.inst 1), s.cells.getD 0 .pyNone)) =
      some ("A", "B", .inst 1) := by
  refine ⟨rfl, rfl, ?_⟩
  rfl

/-- C3 (amended): `target := value` with a cell-valued target raises the
type error exactly when the new unwrapped value's Python representation
type differs from that of the cell's currently stored value (all class
instances sharing one representation type, so replacing an instance of
one class by an instance of another is allowed); otherwise the very same
cell is overwritten in place and the new value is returned.  A target
that does not evaluate to a cell raises the fatal
`Ref assignment target is not a reference (Cell)` error. -/
theorem ref_assign_semantics (n : Nat) (tgt v : Expr) (s s1 s2 : State)
    (a : Nat) (w : Value) (evv : EV) :
    (eval n tgt s = .ok (.cell a) s1 → eval n v s1 = .ok evv s2 →
      eval (n + 1) (.refAssign tgt v) s =
        if pyType (s1.cells.getD a .pyNone) ≠ pyType (unwrap s2 evv) then
          .err ("Type error: expected " ++ typeName s2 (s1.cells.getD a .pyNone) ++
            ", got " ++ typeName s2 (unwrap s2 evv)) s2
        else
          .ok (.v (unwrap s2 evv)) (setCell s2 a (unwrap s2 evv))) ∧
    (eval n tgt s = .ok (.v w) s1 →
      eval (n + 1) (.refAssign tgt v) s =
        .err "Ref assignment target is not a reference (Cell)" s1) := by
  constructor
  · intro ht hv
    simp [eval, evalStep, ht, hv]
  · intro ht
    simp [eval, evalStep, ht]

/-- Witness for C3 (amended): from `let x = 5`, `x := true` raises the
stored-tag type error, applied at the concrete cell 0 of the state the
binding produced. -/
theorem ref_assign_semantics_witness :
    eval 2 (.refAssign (.ident "x") (.boolLit true))
      (defineVariable initState 0 "x" (.v (.int 5))) =
      .err "Type error: expected int, got bool"
        (defineVariable initState 0 "x" (.v (.int 5))) := by
  have h := (ref_assign_semantics 1 (.ident "x") (.boolLit true)
    (defineVariable initState 0 "x" (.v (.int 5)))
    (defineVariable initState 0 "x" (.v (.int 5)))
    (defineVariable initState 0 "x" (.v (.int 5)))
    0 .pyNone (.v (.bool true))).1 rfl rfl
  rw [h]
  rfl

end NITLang

namespace NITLang

/-- `class C { let x  func m() = { let x = 1  x = "s" } }  new C().m()`:
inside `m`, the local variable `x` (an int cell) is bound and reachable,
and `x = "s"` assigns a differently-tagged value to it. -/
def progAssignMismatch : Expr :=
  .block [
    .classDef "C" [⟨"x", Option.none⟩]
      [("m", [], .block [
        .letStatement "x" Option.none (.number 1),
        .assign (.ident "x") (.stringLit "s")])],
    .methodCall (.newExpr "C" []) "m" []]

/-- `let x = 1  x = "s"` at top level (no `self` in scope). -/
def progAssignMismatchNoSelf : Expr :=
  .block [
    .letStatement "x" Option.none (.number 1),
    .assign (.ident "x") (.stringLit "s")]

/-- C1: evaluation of `progAssignMismatch` at the failing input.  The
claimed behaviour is a fatal type error; the code instead catches its own
type error in the broad `except Exception` of `visit_Assign` and falls
back to the implicit `self` field: the run returns `"s"`, raises nothing,
the instance field `x` (cell 0) now holds `"s"`, while the local
variable's cell (cell 2) still holds the int 1.  Without a bound `self`
the same mismatch surfaces as `Undefined variable: x` — still not a type
error, and factually wrong since `x` is bound. -/
theorem assign_type_mismatch_swallowed :
    resStrVal (eval 40 progAssignMismatch initState) = some "s" ∧
    resErrMsg (eval 40 progAssignMismatch initState) = Option.none ∧
    (resStateOf (eval 40 progAssignMismatch initState)).bind (fun s =>
      (s.insts.get? 0).bind (fun i => (dictGet? i.fields "x").map
        (fun a => s.cells.getD a .pyNone))) = some (.str "s") ∧
    (resStateOf (eval 40 progAssignMismatch initState)).map
      (fun s => s.cells.getD 2 .pyNone) = some (.int 1) ∧
    resErrMsg (eval 9 progAssignMismatchNoSelf initState) =
      some "Undefined variable: x" := by
  refine ⟨rfl, rfl, ?_, ?_, rfl⟩ <;> rfl

/-- `{ let d = (let y = 1 in { func g() = 42  class K {} })  new K()  g() }`:
the function and the class are declared inside a let-body whose child
frame is discarded before they are used. -/
def progHoist : Expr :=
  .block [
    .letExpression "y" Option.none (.number 1)
      (.block [.functionDef "g" [] (.number 42), .classDef "K" [] []]),
    .newExpr "K" [],
    .functionCall "g" []]

/-- C4: `visit_FunctionDef` and `visit_ClassDef` register the declaration
in the global frame (frame 0) no matter which frame is current, touching
nothing else; a let-statement, by contrast, binds its variable in
whichever frame is current (`defineVariable … s1.current`); and a
function/class declared inside a let-body stays callable/instantiable
after the body's frame is gone (`progHoist` runs to 42). -/
theorem declarations_register_in_global_frame (n : Nat) (s : State)
    (f c : String) (ps : List String) (b : Expr) (fields : List FieldDef)
    (methods : List (String × List String × Expr)) :
    (eval (n + 1) (.functionDef f ps b) s =
      .ok (.v (.str ("Function \x27" ++ f ++ "\x27 defined")))
        (updateFrame s 0
          (fun fr => { fr with functions := dictSet fr.functions f ⟨f, ps, b⟩ }))) ∧
    (eval (n + 1) (.classDef c fields methods) s =
      .ok (.v (.str ("Class \x27" ++ c ++ "\x27 defined")))
        (updateFrame s 0
          (fun fr => { fr with classes := dictSet fr.classes c ⟨c, fields, methods⟩ }))) ∧
    (∀ (x : String) (ann : Option String) (v : Expr) (evv : EV) (s1 : State),
      eval n v s = .ok evv s1 → checkType s1 ann evv = Option.none →
      eval (n + 1) (.letStatement x ann v) s =
        .ok (.v (.str ("Variable \x27" ++ x ++ "\x27 = " ++
          pyStr (defineVariable s1 s1.current x evv) n
            (unwrap (defineVariable s1 s1.current x evv) evv))))
          (defineVariable s1 s1.current x evv)) ∧
    resIntVal (eval 20 progHoist initState) = some 42 := by
  refine ⟨by simp [eval, evalStep], by simp [eval, evalStep], ?_, rfl⟩
  intro x ann v evv s1 hv hc
  simp [eval, evalStep, hv, hc]

/-- Witness for C4: declaring `func g() = 42` while a non-global frame is
current still writes the global frame's function table, the let-statement
binds into the current (non-global) frame, and the hoisting program runs
to 42. -/
theorem declarations_register_in_global_frame_witness :
    eval 3 (.functionDef "g" [] (.number 42)) (pushFrame initState (some 0)) =
      .ok (.v (.str "Function \x27g\x27 defined"))
        (updateFrame (pushFrame initState (some 0)) 0
          (fun fr => { fr with functions := dictSet fr.functions "g" ⟨"g", [], .number 42⟩ })) ∧
    eval 3 (.letStatement "x" Option.none (.number 5))
      { pushFrame initState (some 0) with current := 1 } =
      .ok (.v (.str "Variable \x27x\x27 = 5"))
        (defineVariable { pushFrame initState (some 0) with current := 1 } 1 "x"
          (.v (.int 5))) := by
  constructor
  · exact (declarations_register_in_global_frame 2 (pushFrame initState (some 0))
      "g" "c" [] (.number 42) [] []).1
  · have h := (declarations_register_in_global_frame 2
      { pushFrame initState (some 0) with current := 1 }
      "g" "c" [] (.number 42) [] []).2.2.1 "x" Option.none (.number 5)
      (.v (.int 5)) { pushFrame initState (some 0) with current := 1 } rfl rfl
    rw [h]
    rfl

/-- C10: a let-statement evaluates to the acknowledgement string
`Variable 'x' = v` built from the bound name and the Python rendering of
the (unwrapped) value — not to the bound value itself — and a block whose
last statement is a let-statement therefore evaluates to that string. -/
theorem let_statement_returns_ack_string (n : Nat) (x : String)
    (ann : Option String) (v : Expr) (s s1 : State) (evv : EV)
    (hv : eval n v s = .ok evv s1) (hc : checkType s1 ann evv = Option.none) :
    eval (n + 1) (.letStatement x ann v) s =
      .ok (.v (.str ("Variable \x27" ++ x ++ "\x27 = " ++
        pyStr (defineVariable s1 s1.current x evv) n
          (unwrap (defineVariable s1 s1.current x evv) evv))))
        (defineVariable s1 s1.current x evv) ∧
    resStrVal (eval 9 (.block [.letStatement "x" Option.none (.number 5)]) initState) =
      some "Variable \x27x\x27 = 5" := by
  refine ⟨?_, rfl⟩
  simp [eval, evalStep, hv, hc]

/-- Witness for C10: `let x = 5` evaluates to the string
`Variable 'x' = 5`, not to 5. -/
theorem let_statement_returns_ack_string_witness :
    eval 2 (.letStatement "x" Option.none (.number 5)) initState =
      .ok (.v (.str "Variable \x27x\x27 = 5"))
        (defineVariable initState 0 "x" (.v (.int 5))) := by
  have h := (let_statement_returns_ack_string 1 "x" Option.none (.number 5)
    initState initState (.v (.int 5)) rfl rfl).1
  rw [h]
  rfl

end NITLang

namespace NITLang

/-- The integer value of a successful `interpret` run, if it is one. -/
def runIntVal : Res Value → Option Int
  | .ok (.int n) _ => some n
  | _ => Option.none

/-- C6: `let x = v in body` evaluates `v` in the current frame, creates a
new child frame parented at the current frame, binds `x` there, evaluates
`body` with that child frame current and — whether `body` returns or
raises — restores the previous current frame (`restoreCur`), returning
the body's outcome.  Concretely, `let x = 5 in let x = 6 in x` is 6; a
completed let-expression leaves `x` unresolved outside; and after a body
that raises, the current frame is restored as well. -/
theorem let_expression_child_frame_semantics (n : Nat) (x : String)
    (ann : Option String) (v body : Expr) (s s1 : State) (evv : EV)
    (hv : eval n v s = .ok evv s1) (hc : checkType s1 ann evv = Option.none) :
    eval (n + 1) (.letExpression x ann v body) s =
      restoreCur
        (eval n body
          { defineVariable (pushFrame s1 (some s1.current)) s1.frames.length x evv
            with current := s1.frames.length })
        s1.current ∧
    runIntVal (interpret 9 (.letExpression "x" Option.none (.number 5)
      (.letExpression "x" Option.none (.number 6) (.ident "x"))) initState) = some 6 ∧
    resErrMsg (eval 9 (.block [.letExpression "x" Option.none (.number 5) (.number 1),
      .ident "x"]) initState) = some "Undefined variable: x" ∧
    resErrMsg (eval 9 (.letExpression "x" Option.none (.number 5) (.ident "zz"))
      initState) = some "Undefined variable: zz" ∧
    (resStateOf (eval 9 (.letExpression "x" Option.none (.number 5) (.ident "zz"))
      initState)).map State.current = some 0 := by
  refine ⟨?_, rfl, rfl, rfl, rfl⟩
  simp [eval, evalStep, hv, hc]

/-- Witness for C6: `let y = 5 in y` from the initial state, applied at
the concrete binding. -/
theorem let_expression_child_frame_semantics_witness :
    eval 2 (.letExpression "y" Option.none (.number 5) (.ident "y")) initState =
      .ok (.cell 0)
        { frames := [{ parent := Option.none, functions := [], vars := [], classes := [] },
                     { parent := some 0, functions := [], vars := [("y", 0)], classes := [] }]
          cells := [.int 5]
          insts := []
          current := 0 } := by
  have h := (let_expression_child_frame_semantics 1 "y" Option.none (.number 5)
    (.ident "y") initState initState (.v (.int 5)) rfl rfl).1
  rw [h]
  rfl

/-- `func f() = a`, then `let a = 5 in f()`: at the call, `a` is bound in
the caller's (let-body) frame only. -/
def progNoCapture : Expr :=
  .block [
    .functionDef "f" [] (.ident "a"),
    .letExpression "a" Option.none (.number 5) (.functionCall "f" [])]

/-- C5: function calls, method calls and `new`-constructor invocations
all run their body through `callBody … 0 …`: the fresh frame is parented
at the global frame 0, never at the caller's frame.  A fresh frame pushed
with parent 0 contains nothing; the variable lookup from a frame parented
directly at the (parentless) global frame consults exactly those two
frames, so a name bound only in the caller's frames is unresolved; and
concretely `progNoCapture` fails with `Undefined variable: a`. -/
theorem call_frames_parent_at_global (n : Nat) (s s1 s2 s3 sf : State)
    (f c m : String) (args : List Expr) (avs : List EV) (fd : FuncD)
    (obj : Expr) (evo : EV) (ia : Nat) (inst : Inst) (cd : ClassD)
    (ps : List String) (b : Expr) (fmap : List (String × Nat)) :
    (getFunction s 0 f = .ok fd → runArgs (eval n) args s = .ok avs s1 →
      avs.length = fd.params.length →
      eval (n + 1) (.functionCall f args) s =
        callBody (eval n) s1 0 Option.none fd.params avs fd.body) ∧
    (eval n obj s = .ok evo s1 → unwrap s1 evo = .inst ia →
      s1.insts.get? ia = some inst →
      findMethod inst.classD.methods m = some (ps, b) →
      runArgs (eval n) args s1 = .ok avs s2 → avs.length = ps.length →
      eval (n + 1) (.methodCall obj m args) s =
        callBody (eval n) s2 0 (some (.inst ia)) ps avs b) ∧
    (getClass s 0 c = .ok cd →
      initFields s cd.fields [] = (sf, fmap) →
      findMethod cd.methods "init" = some (ps, b) →
      ia = sf.insts.length →
      s2 = { sf with insts := sf.insts ++ [⟨cd, fmap⟩] } →
      runArgs (eval n) args s2 = .ok avs s3 → avs.length = ps.length →
      eval (n + 1) (.newExpr c args) s =
        (match callBody (eval n) s3 0 (some (.inst ia)) ps avs b with
         | .ok _ s4 => .ok (.v (.inst ia)) s4
         | .err msg s4 => .err msg s4
         | .out => .out)) ∧
    (∀ (st : State) (parent : Nat),
      (pushFrame st (some parent)).frames.get? st.frames.length =
        some { parent := some parent, functions := [], vars := [], classes := [] }) ∧
    (∀ (st : State) (fi : Nat) (fr fr0 : Frame) (name : String),
      st.frames.get? fi = some fr → fr.parent = some 0 →
      st.frames.get? 0 = some fr0 → fr0.parent = Option.none →
      dictGet? fr.vars name = Option.none → dictGet? fr0.vars name = Option.none →
      getCell st fi name = .error ("Undefined variable: " ++ name)) ∧
    resErrMsg (eval 20 progNoCapture initState) = some "Undefined variable: a" := by
  refine ⟨?_, ?_, ?_, ?_, ?_, rfl⟩
  · intro hf ha hlen
    simp [eval, evalStep, hf, ha, hlen]
  · intro ho hu hi hm ha hlen
    simp only [List.get?_eq_getElem?] at hi
    simp [eval, evalStep, ho, hu, hi, hm, ha, hlen]
  · intro hc hp hm hia hs2 ha hlen
    subst hia hs2
    simp [eval, evalStep, hc, hp, hm, ha, hlen]
  · intro st parent
    simp [pushFrame, List.getElem?_append_right, Nat.le_refl]
  · intro st fi fr fr0 name hfi hpar h0 hpar0 hmiss hmiss0
    have hfi_lt : fi < st.frames.length := by
      rcases List.get?_eq_some.mp hfi with ⟨h, _⟩
      exact h
    have hne : fi ≠ 0 := by
      intro h
      subst h
      rw [hfi] at h0
      have h2 := Option.some.inj h0
      rw [h2, hpar0] at hpar
      exact Option.noConfusion hpar
    obtain ⟨k, hk⟩ : ∃ k, st.frames.length = k + 2 := ⟨st.frames.length - 2, by omega⟩
    unfold getCell
    rw [hk]
    simp only [List.get?_eq_getElem?] at hfi h0
    simp [getCellAux, hfi, hmiss, hpar, h0, hmiss0, hpar0]

/-- Witness for C5: calling a zero-argument global function `g` from a
state where only `g` is declared, applied at the concrete call; the body
frame is parented at the global frame and the call returns 42. -/
theorem call_frames_parent_at_global_witness :
    eval 2 (.functionCall "g" [])
      (updateFrame initState 0
        (fun fr => { fr with functions := dictSet fr.functions "g" ⟨"g", [], .number 42⟩ })) =
      callBody (eval 1)
        (updateFrame initState 0
          (fun fr => { fr with functions := dictSet fr.functions "g" ⟨"g", [], .number 42⟩ }))
        0 Option.none [] [] (.number 42) ∧
    resIntVal (eval 2 (.functionCall "g" [])
      (updateFrame initState 0
        (fun fr => { fr with functions := dictSet fr.functions "g" ⟨"g", [], .number 42⟩ }))) =
      some 42 := by
  constructor
  · exact (call_frames_parent_at_global 1
      (updateFrame initState 0
        (fun fr => { fr with functions := dictSet fr.functions "g" ⟨"g", [], .number 42⟩ }))
      (updateFrame initState 0
        (fun fr => { fr with functions := dictSet fr.functions "g" ⟨"g", [], .number 42⟩ }))
      initState initState initState "g" "c" "m" [] [] ⟨"g", [], .number 42⟩
      (.number 0) (.v .pyNone) 0 ⟨⟨"c", [], []⟩, []⟩ ⟨"c", [], []⟩ [] (.number 0) []).1
      rfl rfl rfl
  · rfl

/-- `func setit(p) = (p := 9)`, then `let x = 5 in { setit(x)  #x }`. -/
def progParamAlias : Expr :=
  .block [
    .functionDef "setit" ["p"] (.refAssign (.ident "p") (.number 9)),
    .letExpression "x" Option.none (.number 5)
      (.block [.functionCall "setit" [.ident "x"], .derefExpr "x"])]

/-- C9: binding a parameter to an argument that evaluated to a cell binds
that very cell — `define_variable` does not re-wrap a `Cell`, so no fresh
cell is allocated and the heap is untouched — and a plain identifier
argument does evaluate to the caller's cell; consequently `setit(x)` with
`p := 9` inside mutates the caller's `x`, observed as 9 after the call
(cell 0, `x`'s cell, now holds 9). -/
theorem cell_arguments_alias_callers_cell (n : Nat) (s : State)
    (fidx a : Nat) (pname : String) :
    defineVariable s fidx pname (.cell a) =
      updateFrame s fidx (fun fr => { fr with vars := dictSet fr.vars pname a }) ∧
    (defineVariable s fidx pname (.cell a)).cells = s.cells ∧
    (∀ (name : String) (a2 : Nat) (s2 : State),
      getCell s2 s2.current name = .ok a2 →
      eval (n + 1) (.ident name) s2 = .ok (.cell a2) s2) ∧
    resIntVal (eval 30 progParamAlias initState) = some 9 ∧
    (resStateOf (eval 30 progParamAlias initState)).map
      (fun st => st.cells.getD 0 .pyNone) = some (.int 9) := by
  refine ⟨rfl, ?_, ?_, rfl, ?_⟩
  · show (updateFrame s fidx _).cells = s.cells
    unfold updateFrame
    split <;> rfl
  · intro name a2 s2 h
    simp [eval, evalStep, h]
  · rfl

/-- Witness for C9: reading the identifier `x` bound at cell 0 yields
that cell itself, applied at the concrete state of `let x = 5`. -/
theorem cell_arguments_alias_callers_cell_witness :
    eval 1 (.ident "x") (defineVariable initState 0 "x" (.v (.int 5))) =
      .ok (.cell 0) (defineVariable initState 0 "x" (.v (.int 5))) := by
  exact (cell_arguments_alias_callers_cell 0
    (defineVariable initState 0 "x" (.v (.int 5))) 0 0 "p").2.2.1 "x" 0
    (defineVariable initState 0 "x" (.v (.int 5))) rfl

end NITLang
